import Mathlib

/-!
Verification of the tax-schedule evaluator in `belasting.py` (Dutch income
tax, 2023 schedule).  The Python floats are modelled as exact rationals; the
piecewise definitions below mirror the source functions line by line.
-/

namespace Belasting

/-- Box 1 bracket threshold (`BOX1_TARIEF = 73031.0`). -/
def BOX1_TARIEF : ℚ := 73031

/-- First Box 1 marginal rate (`BOX1_SCHIJF_1_PERC = 0.3693`). -/
def BOX1_SCHIJF_1_PERC : ℚ := 3693 / 10000

/-- Second Box 1 marginal rate (`BOX1_SCHIJF_2_PERC = 0.4950`). -/
def BOX1_SCHIJF_2_PERC : ℚ := 4950 / 10000

/-- General tax credit first threshold (`AH_TARIEF_1 = 22661.0`). -/
def AH_TARIEF_1 : ℚ := 22661

/-- General tax credit second threshold (`AH_TARIEF_2 = 73031.0`). -/
def AH_TARIEF_2 : ℚ := 73031

/-- General tax credit maximum (`AH_KORTING = 3070.0`). -/
def AH_KORTING : ℚ := 3070

/-- General tax credit phase-out rate (`AH_PERC = 0.06095`). -/
def AH_PERC : ℚ := 6095 / 100000

/-- Labor credit threshold 1 (`AK_TARIEF_1 = 10741.0`). -/
def AK_TARIEF_1 : ℚ := 10741

/-- Labor credit threshold 2 (`AK_TARIEF_2 = 23201.0`). -/
def AK_TARIEF_2 : ℚ := 23201

/-- Labor credit threshold 3 (`AK_TARIEF_3 = 37691.0`). -/
def AK_TARIEF_3 : ℚ := 37691

/-- Labor credit threshold 4 (`AK_TARIEF_4 = 115295.0`). -/
def AK_TARIEF_4 : ℚ := 115295

/-- Labor credit rate 1 (`AK_SCHIJF_1_PERC = 0.08231`). -/
def AK_SCHIJF_1_PERC : ℚ := 8231 / 100000

/-- Labor credit rate 2 (`AK_SCHIJF_2_PERC = 0.29861`). -/
def AK_SCHIJF_2_PERC : ℚ := 29861 / 100000

/-- Labor credit rate 3 (`AK_SCHIJF_3_PERC = 0.03085`). -/
def AK_SCHIJF_3_PERC : ℚ := 3085 / 100000

/-- Labor credit rate 4 (`AK_SCHIJF_4_PERC = 0.06510`). -/
def AK_SCHIJF_4_PERC : ℚ := 6510 / 100000

/-- Labor credit anchor 1 (`AK_KORTING_1 = 884.0`). -/
def AK_KORTING_1 : ℚ := 884

/-- Labor credit anchor 2 (`AK_KORTING_2 = 4605.0`). -/
def AK_KORTING_2 : ℚ := 4605

/-- Labor credit anchor 3 (`AK_KORTING_3 = 5052.0`). -/
def AK_KORTING_3 : ℚ := 5052

/-- `_min1(getal) = getal - 1`. -/
def _min1 (getal : ℚ) : ℚ := getal - 1

/-- `box1_tarief`: bracket tax on a taxable income. -/
def box1_tarief (inkomen : ℚ) : ℚ :=
  let schijf1_bedrag := min inkomen BOX1_TARIEF
  let schijf2_bedrag := max (inkomen - BOX1_TARIEF) 0
  schijf1_bedrag * BOX1_SCHIJF_1_PERC + schijf2_bedrag * BOX1_SCHIJF_2_PERC

/-- `algemene_heffingskorting`: general tax credit for a taxable income. -/
def algemene_heffingskorting (inkomen : ℚ) : ℚ :=
  if inkomen < AH_TARIEF_1 then
    AH_KORTING
  else if inkomen < AH_TARIEF_2 then
    AH_KORTING - AH_PERC * (inkomen - _min1 AH_TARIEF_1)
  else
    0

/-- `arbeidskorting`: labor tax credit for a labor income. -/
def arbeidskorting (inkomen : ℚ) : ℚ :=
  if inkomen < AK_TARIEF_1 then
    AK_SCHIJF_1_PERC * inkomen
  else if inkomen < AK_TARIEF_2 then
    AK_KORTING_1 + AK_SCHIJF_2_PERC * (inkomen - _min1 AK_TARIEF_1)
  else if inkomen < AK_TARIEF_3 then
    AK_KORTING_2 + AK_SCHIJF_3_PERC * (inkomen - AK_TARIEF_2)
  else if inkomen < AK_TARIEF_4 then
    AK_KORTING_3 - AK_SCHIJF_4_PERC * (inkomen - AK_TARIEF_3)
  else
    0

/-- `belasting`: total tax on a gross income, credits applied, clamped at 0. -/
def belasting (bruto : ℚ) : ℚ :=
  max (box1_tarief bruto - algemene_heffingskorting bruto - arbeidskorting bruto) 0

/-- `netto`: net income for a gross income. -/
def netto (bruto : ℚ) : ℚ := bruto - belasting bruto

/-- `belasting_perc`: effective tax ratio, 0 at zero income by explicit guard. -/
def belasting_perc (bruto : ℚ) : ℚ :=
  if bruto = 0 then 0 else belasting bruto / bruto

/-- `marginale_belasting`: forward difference of `belasting` over one unit. -/
def marginale_belasting (bruto : ℚ) : ℚ :=
  belasting (bruto + 1) - belasting bruto

/-! ### Helper lemmas shared across the development -/

/-- For any income at most 10000 (in particular any negative income) the
credits exceed the bracket tax, so the clamped total tax is zero. -/
lemma belasting_eq_zero_low (x : ℚ) (hx : x ≤ 10000) : belasting x = 0 := by
  unfold belasting
  apply max_eq_right
  simp only [box1_tarief, algemene_heffingskorting, arbeidskorting,
    BOX1_TARIEF, BOX1_SCHIJF_1_PERC, BOX1_SCHIJF_2_PERC,
    AH_TARIEF_1, AH_TARIEF_2, AH_KORTING, AH_PERC,
    AK_TARIEF_1, AK_TARIEF_2, AK_TARIEF_3, AK_TARIEF_4,
    AK_SCHIJF_1_PERC, AK_SCHIJF_2_PERC, AK_SCHIJF_3_PERC, AK_SCHIJF_4_PERC,
    AK_KORTING_1, AK_KORTING_2, AK_KORTING_3, _min1, min_def, max_def]
  split_ifs <;> linarith

/-- Component values of the evaluator on negative income. -/
lemma components_on_neg (x : ℚ) (hx : x < 0) :
    box1_tarief x = BOX1_SCHIJF_1_PERC * x ∧
    algemene_heffingskorting x = AH_KORTING ∧
    arbeidskorting x = AK_SCHIJF_1_PERC * x := by
  refine ⟨?_, ?_, ?_⟩
  · simp only [box1_tarief]
    rw [min_eq_left (by unfold BOX1_TARIEF; linarith),
      max_eq_right (by unfold BOX1_TARIEF; linarith)]
    ring
  · simp only [algemene_heffingskorting]
    rw [if_pos (by unfold AH_TARIEF_1; linarith)]
  · simp only [arbeidskorting]
    rw [if_pos (by unfold AK_TARIEF_1; linarith)]

/-- The bracket tax grows by at most the top rate over a unit step. -/
lemma box1_step_le (x : ℚ) :
    box1_tarief (x + 1) - box1_tarief x ≤ 4950 / 10000 := by
  simp only [box1_tarief, BOX1_TARIEF, BOX1_SCHIJF_1_PERC, BOX1_SCHIJF_2_PERC,
    min_def, max_def]
  split_ifs <;> linarith

/-- Below the bracket threshold the bracket tax grows by at most the
bottom rate over a unit step. -/
lemma box1_step_le_low (x : ℚ) (hx : x ≤ 73030) :
    box1_tarief (x + 1) - box1_tarief x ≤ 3693 / 10000 := by
  simp only [box1_tarief, BOX1_TARIEF, BOX1_SCHIJF_1_PERC, BOX1_SCHIJF_2_PERC,
    min_def, max_def]
  split_ifs <;> linarith

/-- The general credit falls by at most twice its phase-out rate over a
unit step. -/
lemma ahk_dec_le (x : ℚ) :
    algemene_heffingskorting x - algemene_heffingskorting (x + 1) ≤ 1219 / 10000 := by
  simp only [algemene_heffingskorting, AH_TARIEF_1, AH_TARIEF_2, AH_KORTING,
    AH_PERC, _min1]
  split_ifs <;> linarith

/-- Past 73030 the general credit does not fall over a unit step. -/
lemma ahk_dec_high (x : ℚ) (hx : 73030 ≤ x) :
    algemene_heffingskorting x - algemene_heffingskorting (x + 1) ≤ 0 := by
  simp only [algemene_heffingskorting, AH_TARIEF_1, AH_TARIEF_2, AH_KORTING,
    AH_PERC, _min1]
  split_ifs <;> linarith

/-- Up to 73030 the labor credit falls by at most 0.0816 over a unit step. -/
lemma ak_dec_low (x : ℚ) (hx : x ≤ 73030) :
    arbeidskorting x - arbeidskorting (x + 1) ≤ 816 / 10000 := by
  simp only [arbeidskorting, AK_TARIEF_1, AK_TARIEF_2, AK_TARIEF_3, AK_TARIEF_4,
    AK_SCHIJF_1_PERC, AK_SCHIJF_2_PERC, AK_SCHIJF_3_PERC, AK_SCHIJF_4_PERC,
    AK_KORTING_1, AK_KORTING_2, AK_KORTING_3, _min1]
  split_ifs <;> linarith

/-- Past 73030 the labor credit falls by at most its phase-out rate over a
unit step. -/
lemma ak_dec_high (x : ℚ) (hx : 73030 ≤ x) :
    arbeidskorting x - arbeidskorting (x + 1) ≤ 651 / 10000 := by
  simp only [arbeidskorting, AK_TARIEF_1, AK_TARIEF_2, AK_TARIEF_3, AK_TARIEF_4,
    AK_SCHIJF_1_PERC, AK_SCHIJF_2_PERC, AK_SCHIJF_3_PERC, AK_SCHIJF_4_PERC,
    AK_KORTING_1, AK_KORTING_2, AK_KORTING_3, _min1]
  split_ifs <;> linarith

/-- The unclamped tax formula grows by strictly less than 1 over a unit step. -/
lemma unclamped_step_lt_one (x : ℚ) :
    (box1_tarief (x + 1) - algemene_heffingskorting (x + 1) - arbeidskorting (x + 1)) -
      (box1_tarief x - algemene_heffingskorting x - arbeidskorting x) < 1 := by
  rcases le_total x 73030 with hx | hx
  · have h1 := box1_step_le_low x hx
    have h2 := ahk_dec_le x
    have h3 := ak_dec_low x hx
    linarith
  · have h1 := box1_step_le x
    have h2 := ahk_dec_high x hx
    have h3 := ak_dec_high x hx
    linarith

/-- Clamping at zero preserves a strict unit bound on forward differences. -/
lemma max_zero_step_lt_one (a b : ℚ) (hab : a - b < 1) :
    max a 0 - max b 0 < 1 := by
  rcases max_cases a 0 with ⟨h1, h1b⟩ | ⟨h1, h1b⟩ <;>
    rcases max_cases b 0 with ⟨h2, h2b⟩ | ⟨h2, h2b⟩ <;>
      rw [h1, h2] <;> linarith

/-! ### Claim theorems -/

/-- C1: for every income >= 0, `belasting` equals the clamped formula
`max(box1_tarief - algemene_heffingskorting - arbeidskorting, 0)`, and in
particular is non-negative. -/
theorem belasting_eq_clamped_and_nonneg (bruto : ℚ) (h : 0 ≤ bruto) :
    belasting bruto =
      max (box1_tarief bruto - algemene_heffingskorting bruto - arbeidskorting bruto) 0 ∧
    0 ≤ belasting bruto :=
  ⟨rfl, le_max_right _ _⟩

/-- Witness for C1 at income 3. -/
theorem belasting_eq_clamped_and_nonneg_witness :
    belasting 3 =
      max (box1_tarief 3 - algemene_heffingskorting 3 - arbeidskorting 3) 0 ∧
    0 ≤ belasting 3 :=
  belasting_eq_clamped_and_nonneg 3 (by norm_num)

/-- C2 counterexample: at income 115294.9 (= 1152949/10, which is >= 0 and
below `AK_TARIEF_4`) the labor credit is strictly negative, refuting the
claim that `arbeidskorting` is non-negative for every income >= 0. -/
theorem arbeidskorting_neg_near_top :
    (0 : ℚ) ≤ 1152949 / 10 ∧ arbeidskorting (1152949 / 10) < 0 := by
  constructor
  · norm_num
  · simp only [arbeidskorting, AK_TARIEF_1, AK_TARIEF_2, AK_TARIEF_3, AK_TARIEF_4,
      AK_SCHIJF_1_PERC, AK_SCHIJF_2_PERC, AK_SCHIJF_3_PERC, AK_SCHIJF_4_PERC,
      AK_KORTING_1, AK_KORTING_2, AK_KORTING_3, _min1]
    norm_num

/-- C2 (amended): for every income >= 0, `arbeidskorting` is non-negative up
to 25018947/217 (about 115294.69), strictly negative strictly between that
point and `AK_TARIEF_4`, and exactly 0 for every income >= `AK_TARIEF_4`
(= 115295). -/
theorem arbeidskorting_sign (inkomen : ℚ) (h : 0 ≤ inkomen) :
    (inkomen ≤ 25018947 / 217 → 0 ≤ arbeidskorting inkomen) ∧
    (25018947 / 217 < inkomen → inkomen < AK_TARIEF_4 → arbeidskorting inkomen < 0) ∧
    (AK_TARIEF_4 ≤ inkomen → arbeidskorting inkomen = 0) := by
  refine ⟨fun hc => ?_, fun hc hd => ?_, fun hc => ?_⟩ <;>
    simp only [arbeidskorting, AK_TARIEF_1, AK_TARIEF_2, AK_TARIEF_3, AK_TARIEF_4,
      AK_SCHIJF_1_PERC, AK_SCHIJF_2_PERC, AK_SCHIJF_3_PERC, AK_SCHIJF_4_PERC,
      AK_KORTING_1, AK_KORTING_2, AK_KORTING_3, _min1] at * <;>
    split_ifs <;> first | rfl | linarith

/-- Witness for C2 (amended) at incomes 100, 115294.9 and 200000. -/
theorem arbeidskorting_sign_witness :
    0 ≤ arbeidskorting 100 ∧
    arbeidskorting (1152949 / 10) < 0 ∧
    arbeidskorting 200000 = 0 :=
  ⟨(arbeidskorting_sign 100 (by norm_num)).1 (by norm_num),
   (arbeidskorting_sign (1152949 / 10) (by norm_num)).2.1 (by norm_num)
     (by norm_num [AK_TARIEF_4]),
   (arbeidskorting_sign 200000 (by norm_num)).2.2 (by norm_num [AK_TARIEF_4])⟩

/-- C3: for every income >= 0, the general credit is the flat maximum below
`AH_TARIEF_1`, equals `AH_KORTING - AH_PERC * (inkomen - (AH_TARIEF_1 - 1))`
on `[AH_TARIEF_1, AH_TARIEF_2)` (so the value at `AH_TARIEF_1` is the
maximum minus one unit of the rate, a jump of `AH_PERC`), is 0 from
`AH_TARIEF_2` on (in particular at `AH_TARIEF_2` itself), and is
non-increasing on `[AH_TARIEF_1, AH_TARIEF_2)`. -/
theorem algemene_heffingskorting_regions (x y : ℚ) (hx : 0 ≤ x) :
    (x < AH_TARIEF_1 → algemene_heffingskorting x = AH_KORTING) ∧
    (AH_TARIEF_1 ≤ x → x < AH_TARIEF_2 →
      algemene_heffingskorting x = AH_KORTING - AH_PERC * (x - (AH_TARIEF_1 - 1))) ∧
    algemene_heffingskorting AH_TARIEF_1 = AH_KORTING - AH_PERC ∧
    (AH_TARIEF_2 ≤ x → algemene_heffingskorting x = 0) ∧
    algemene_heffingskorting AH_TARIEF_2 = 0 ∧
    (AH_TARIEF_1 ≤ x → x ≤ y → y < AH_TARIEF_2 →
      algemene_heffingskorting y ≤ algemene_heffingskorting x) := by
  refine ⟨fun hc => ?_, fun hc hd => ?_, ?_, fun hc => ?_, ?_, fun hc hd he => ?_⟩ <;>
    simp only [algemene_heffingskorting, AH_TARIEF_1, AH_TARIEF_2, AH_KORTING,
      AH_PERC, _min1] at * <;>
    split_ifs <;> first | rfl | linarith

/-- Witness for C3 at incomes 10000, 30000, 40000 and 80000. -/
theorem algemene_heffingskorting_regions_witness :
    algemene_heffingskorting 10000 = AH_KORTING ∧
    algemene_heffingskorting 30000 = AH_KORTING - AH_PERC * (30000 - (AH_TARIEF_1 - 1)) ∧
    algemene_heffingskorting 80000 = 0 ∧
    algemene_heffingskorting 40000 ≤ algemene_heffingskorting 30000 :=
  ⟨(algemene_heffingskorting_regions 10000 0 (by norm_num)).1 (by norm_num [AH_TARIEF_1]),
   (algemene_heffingskorting_regions 30000 0 (by norm_num)).2.1
     (by norm_num [AH_TARIEF_1]) (by norm_num [AH_TARIEF_2]),
   (algemene_heffingskorting_regions 80000 0 (by norm_num)).2.2.2.1
     (by norm_num [AH_TARIEF_2]),
   (algemene_heffingskorting_regions 30000 40000 (by norm_num)).2.2.2.2.2
     (by norm_num [AH_TARIEF_1]) (by norm_num) (by norm_num [AH_TARIEF_2])⟩

/-- C4: the labor credit keeps the asymmetric offsets of the statutory
schedule: on `[AK_TARIEF_1, AK_TARIEF_2)` it equals
`AK_KORTING_1 + AK_SCHIJF_2_PERC * (inkomen - (AK_TARIEF_1 - 1))` (with the
"-1" offset), while on `[AK_TARIEF_2, AK_TARIEF_3)` it equals
`AK_KORTING_2 + AK_SCHIJF_3_PERC * (inkomen - AK_TARIEF_2)` (no offset). -/
theorem arbeidskorting_offset_regions (x : ℚ) :
    (AK_TARIEF_1 ≤ x → x < AK_TARIEF_2 →
      arbeidskorting x = AK_KORTING_1 + AK_SCHIJF_2_PERC * (x - (AK_TARIEF_1 - 1))) ∧
    (AK_TARIEF_2 ≤ x → x < AK_TARIEF_3 →
      arbeidskorting x = AK_KORTING_2 + AK_SCHIJF_3_PERC * (x - AK_TARIEF_2)) := by
  refine ⟨fun hc hd => ?_, fun hc hd => ?_⟩ <;>
    simp only [arbeidskorting, AK_TARIEF_1, AK_TARIEF_2, AK_TARIEF_3, AK_TARIEF_4,
      AK_SCHIJF_1_PERC, AK_SCHIJF_2_PERC, AK_SCHIJF_3_PERC, AK_SCHIJF_4_PERC,
      AK_KORTING_1, AK_KORTING_2, AK_KORTING_3, _min1] at * <;>
    split_ifs <;> first | rfl | linarith

/-- Witness for C4 at incomes 20000 and 30000. -/
theorem arbeidskorting_offset_regions_witness :
    arbeidskorting 20000 = AK_KORTING_1 + AK_SCHIJF_2_PERC * (20000 - (AK_TARIEF_1 - 1)) ∧
    arbeidskorting 30000 = AK_KORTING_2 + AK_SCHIJF_3_PERC * (30000 - AK_TARIEF_2) :=
  ⟨(arbeidskorting_offset_regions 20000).1
     (by norm_num [AK_TARIEF_1]) (by norm_num [AK_TARIEF_2]),
   (arbeidskorting_offset_regions 30000).2
     (by norm_num [AK_TARIEF_2]) (by norm_num [AK_TARIEF_3])⟩

/-- C5: the zero clamp in `belasting` is load-bearing: at income 10000 the
unclamped amount is strictly negative and `belasting` returns 0. -/
theorem belasting_clamp_active :
    (0 : ℚ) ≤ 10000 ∧
    box1_tarief 10000 - algemene_heffingskorting 10000 - arbeidskorting 10000 < 0 ∧
    belasting 10000 = 0 := by
  refine ⟨by norm_num, ?_, belasting_eq_zero_low 10000 (by norm_num)⟩
  simp only [box1_tarief, algemene_heffingskorting, arbeidskorting,
    BOX1_TARIEF, BOX1_SCHIJF_1_PERC, BOX1_SCHIJF_2_PERC,
    AH_TARIEF_1, AH_TARIEF_2, AH_KORTING, AH_PERC,
    AK_TARIEF_1, AK_TARIEF_2, AK_TARIEF_3, AK_TARIEF_4,
    AK_SCHIJF_1_PERC, AK_SCHIJF_2_PERC, AK_SCHIJF_3_PERC, AK_SCHIJF_4_PERC,
    AK_KORTING_1, AK_KORTING_2, AK_KORTING_3, _min1, min_def, max_def]
  norm_num

/-- C6 counterexample: at income -1 every evaluator function returns a plain
number instead of signalling an invalid argument: the clamped tax is 0, net
income is -1, both rate functions return 0, and the three component
functions return their branch-1 formula values. -/
theorem evaluators_return_values_at_neg_one :
    box1_tarief (-1) = -(3693 / 10000) ∧
    algemene_heffingskorting (-1) = 3070 ∧
    arbeidskorting (-1) = -(8231 / 100000) ∧
    belasting (-1) = 0 ∧
    netto (-1) = -1 ∧
    belasting_perc (-1) = 0 ∧
    marginale_belasting (-1) = 0 := by
  have h := components_on_neg (-1) (by norm_num)
  have hb : belasting (-1) = 0 := belasting_eq_zero_low (-1) (by norm_num)
  have hb0 : belasting (-1 + 1) = 0 := belasting_eq_zero_low (-1 + 1) (by norm_num)
  refine ⟨?_, ?_, ?_, hb, ?_, ?_, ?_⟩
  · rw [h.1]; unfold BOX1_SCHIJF_1_PERC; ring
  · rw [h.2.1]; rfl
  · rw [h.2.2]; unfold AK_SCHIJF_1_PERC; ring
  · rw [netto, hb]; ring
  · rw [belasting_perc, if_neg (by norm_num), hb, zero_div]
  · rw [marginale_belasting, hb, hb0]; ring

/-- C6 (amended): for every negative income no evaluator signals an error;
each returns a plain number: `belasting` returns 0, `netto` returns the
income, `belasting_perc` and `marginale_belasting` return 0, and the three
component functions return their first-branch formula values. -/
theorem evaluators_total_on_neg (x : ℚ) (hx : x < 0) :
    belasting x = 0 ∧ netto x = x ∧ belasting_perc x = 0 ∧
    marginale_belasting x = 0 ∧
    box1_tarief x = BOX1_SCHIJF_1_PERC * x ∧
    algemene_heffingskorting x = AH_KORTING ∧
    arbeidskorting x = AK_SCHIJF_1_PERC * x := by
  have hb : belasting x = 0 := belasting_eq_zero_low x (by linarith)
  have hb1 : belasting (x + 1) = 0 := belasting_eq_zero_low (x + 1) (by linarith)
  have hc := components_on_neg x hx
  refine ⟨hb, ?_, ?_, ?_, hc.1, hc.2.1, hc.2.2⟩
  · rw [netto, hb]; ring
  · rw [belasting_perc, if_neg hx.ne, hb, zero_div]
  · rw [marginale_belasting, hb, hb1]; ring

/-- Witness for C6 (amended) at income -2. -/
theorem evaluators_total_on_neg_witness :
    belasting (-2) = 0 ∧ netto (-2) = -2 ∧ belasting_perc (-2) = 0 ∧
    marginale_belasting (-2) = 0 ∧
    box1_tarief (-2) = BOX1_SCHIJF_1_PERC * (-2) ∧
    algemene_heffingskorting (-2) = AH_KORTING ∧
    arbeidskorting (-2) = AK_SCHIJF_1_PERC * (-2) :=
  evaluators_total_on_neg (-2) (by norm_num)

/-- C7: at income 150000 both credit top thresholds lie below the income,
both credits are 0, the bracket tax is positive (so the clamp is inactive),
and the total tax equals the bracket tax exactly. -/
theorem credits_exhausted_at_150000 :
    AH_TARIEF_2 < 150000 ∧ AK_TARIEF_4 < 150000 ∧
    algemene_heffingskorting 150000 = 0 ∧
    arbeidskorting 150000 = 0 ∧
    0 < box1_tarief 150000 ∧
    belasting 150000 = box1_tarief 150000 := by
  have hahk : algemene_heffingskorting 150000 = 0 := by
    simp only [algemene_heffingskorting, AH_TARIEF_1, AH_TARIEF_2]
    norm_num
  have hak : arbeidskorting 150000 = 0 := by
    simp only [arbeidskorting, AK_TARIEF_1, AK_TARIEF_2, AK_TARIEF_3, AK_TARIEF_4]
    norm_num
  have hbox : (0 : ℚ) < box1_tarief 150000 := by
    simp only [box1_tarief, BOX1_TARIEF, BOX1_SCHIJF_1_PERC, BOX1_SCHIJF_2_PERC,
      min_def, max_def]
    norm_num
  refine ⟨by unfold AH_TARIEF_2; norm_num, by unfold AK_TARIEF_4; norm_num,
    hahk, hak, hbox, ?_⟩
  rw [belasting, hahk, hak]
  rw [sub_zero, sub_zero]
  exact max_eq_left hbox.le

/-- C8: `belasting_perc` returns exactly 0 at income 0 through its explicit
guard, and for every positive income returns `belasting bruto / bruto`;
the division is never reached with a zero divisor. -/
theorem belasting_perc_guard (bruto : ℚ) (h : 0 < bruto) :
    belasting_perc 0 = 0 ∧ belasting_perc bruto = belasting bruto / bruto := by
  constructor
  · rw [belasting_perc, if_pos rfl]
  · rw [belasting_perc, if_neg h.ne']

/-- Witness for C8 at income 1. -/
theorem belasting_perc_guard_witness :
    belasting_perc 0 = 0 ∧ belasting_perc 1 = belasting 1 / 1 :=
  belasting_perc_guard 1 (by norm_num)

/-- C9: for every income >= 0 the marginal rate, the forward difference
`belasting (x+1) - belasting x`, is strictly less than 1; equivalently the
net income strictly increases when gross income rises by one unit. -/
theorem marginale_lt_one_netto_increasing (x : ℚ) (hx : 0 ≤ x) :
    marginale_belasting x < 1 ∧ netto x < netto (x + 1) := by
  have h := max_zero_step_lt_one
    (box1_tarief (x + 1) - algemene_heffingskorting (x + 1) - arbeidskorting (x + 1))
    (box1_tarief x - algemene_heffingskorting x - arbeidskorting x)
    (unclamped_step_lt_one x)
  have h2 : belasting (x + 1) - belasting x < 1 := h
  constructor
  · rw [marginale_belasting]; exact h2
  · rw [netto, netto]; linarith

/-- Witness for C9 at income 0. -/
theorem marginale_lt_one_netto_increasing_witness :
    marginale_belasting 0 < 1 ∧ netto 0 < netto (0 + 1) :=
  marginale_lt_one_netto_increasing 0 (by norm_num)

/-- C10: for every negative income the code raises no error: the unclamped
amount is strictly negative, `belasting` returns exactly 0, and `netto`
returns the input income unchanged. -/
theorem belasting_netto_on_negative (x : ℚ) (hx : x < 0) :
    box1_tarief x - algemene_heffingskorting x - arbeidskorting x < 0 ∧
    belasting x = 0 ∧ netto x = x := by
  have hc := components_on_neg x hx
  have hb : belasting x = 0 := belasting_eq_zero_low x (by linarith)
  refine ⟨?_, hb, ?_⟩
  · rw [hc.1, hc.2.1, hc.2.2]
    unfold BOX1_SCHIJF_1_PERC AH_KORTING AK_SCHIJF_1_PERC
    linarith
  · rw [netto, hb]; ring

/-- Witness for C10 at income -5. -/
theorem belasting_netto_on_negative_witness :
    box1_tarief (-5) - algemene_heffingskorting (-5) - arbeidskorting (-5) < 0 ∧
    belasting (-5) = 0 ∧ netto (-5) = -5 :=
  belasting_netto_on_negative (-5) (by norm_num)

end Belasting
